import Mathlib

/-!
Verification of the HORNET node REST API gateway slice: the RestAPIV1 plugin
(route registration, feature registry, dependency composition, response
encodings) and the Debug plugin (debug introspection surface).

Shallow embedding: the Go `configure` functions become Lean functions that
compute the list of registered routes; per-route handlers become pure
functions from the relevant collaborator results to HTTP responses; the
process-wide `features` slice becomes explicit list state.
-/

/-- HTTP methods used by the gateway's registered routes. -/
inductive Method
  | GET
  | POST
  | DELETE
deriving DecidableEq, Repr

/-- Success response encoding of a registered route, as produced by its
handler closure: a JSON envelope with a status code (and possibly a Location
header), a raw octet-stream blob, or an empty no-content body. -/
inductive Enc
  | json (status : Nat) (setsLocation : Bool)
  | octet (status : Nat)
  | empty (status : Nat)
deriving DecidableEq, Repr

/-- The three coexisting success-encoding classes of the dispatcher. -/
inductive EncClass
  | structured
  | rawBinary
  | emptyBody
deriving DecidableEq, Repr

/-- Classification of a concrete encoding into its class. -/
def encClass : Enc → EncClass
  | .json _ _ => .structured
  | .octet _ => .rawBinary
  | .empty _ => .emptyBody

/-- The status code a route's handler answers with on success. -/
def Enc.successStatus : Enc → Nat
  | .json s _ => s
  | .octet s => s
  | .empty s => s

/-- A registered route: method, path template, success encoding. -/
structure Route where
  method : Method
  path : String
  enc : Enc
deriving DecidableEq, Repr

/-- Lookup of a route in a registered route list by method and path template
(the router host dispatches a request to the matching registered route; a
request whose method/path matches no registered route is unrouted). -/
def findRoute (routes : List Route) (m : Method) (p : String) : Option Route :=
  routes.find? (fun r => r.method == m && r.path == p)

/-- Status produced for a request: 404 when no route matches (unrouted),
otherwise the matched route's success status. -/
def dispatchStatus (routes : List Route) (m : Method) (p : String) : Nat :=
  match findRoute routes m p with
  | none => 404
  | some r => r.enc.successStatus

/-- Error taxonomy of the gateway (section 7 of the spec); the mapping to
HTTP status codes lives in the repository's restapi package. -/
inductive ApiError
  | notSynced
  | invalidParameter
  | notFound
  | powRejected
  | internalError
deriving DecidableEq, Repr

/-- Modelled from the spec: the single error-to-status translation of the
repository's restapi package (not part of this slice): NotSynced maps to
503, InvalidParameter and ProofOfWorkRejected to 400, NotFound to 404,
Internal to 500. -/
def httpStatus : ApiError → Nat
  | .notSynced => 503
  | .invalidParameter => 400
  | .notFound => 404
  | .powRejected => 400
  | .internalError => 500

/-- Plugin default status (node.StatusEnabled / node.Disabled). -/
inductive PluginStatus
  | statusEnabled
  | statusDisabled
deriving DecidableEq, Repr

namespace V1

/- Parameter names as defined in the repository's restapi package (the
package is outside this slice; the names are referenced by the route
constants below). -/

def ParameterMessageID : String := "messageID"
def ParameterTransactionID : String := "transactionID"
def ParameterMilestoneIndex : String := "milestoneIndex"
def ParameterOutputID : String := "outputID"
def ParameterAddress : String := "address"
def ParameterAliasID : String := "aliasID"
def ParameterNFTID : String := "nftID"
def ParameterFoundryID : String := "foundryID"
def ParameterPeerID : String := "peerID"

/-- Route path constants of the RestAPIV1 plugin. -/
def RouteInfo : String := "/info"
def RouteTips : String := "/tips"
def RouteMessageData : String := "/messages/:" ++ ParameterMessageID
def RouteMessageMetadata : String := "/messages/:" ++ ParameterMessageID ++ "/metadata"
def RouteMessageBytes : String := "/messages/:" ++ ParameterMessageID ++ "/raw"
def RouteMessageChildren : String := "/messages/:" ++ ParameterMessageID ++ "/children"
def RouteMessages : String := "/messages"
def RouteTransactionsIncludedMessage : String :=
  "/transactions/:" ++ ParameterTransactionID ++ "/included-message"
def RouteMilestone : String := "/milestones/:" ++ ParameterMilestoneIndex
def RouteMilestoneUTXOChanges : String :=
  "/milestones/:" ++ ParameterMilestoneIndex ++ "/utxo-changes"
def RouteOutputs : String := "/outputs"
def RouteOutput : String := "/outputs/:" ++ ParameterOutputID
def RouteAddressBech32Outputs : String := "/addresses/:" ++ ParameterAddress ++ "/outputs"
def RouteAddressEd25519Outputs : String :=
  "/addresses/ed25519/:" ++ ParameterAddress ++ "/outputs"
def RouteAddressAliasOutputs : String :=
  "/addresses/alias/:" ++ ParameterAddress ++ "/outputs"
def RouteAddressNFTOutputs : String :=
  "/addresses/nft/:" ++ ParameterAddress ++ "/outputs"
def RouteAlias : String := "/aliases/:" ++ ParameterAliasID
def RouteNFT : String := "/nft/:" ++ ParameterNFTID
def RouteFoundry : String := "/foundries/:" ++ ParameterFoundryID
def RouteTreasury : String := "/treasury"
def RouteReceipts : String := "/receipts"
def RouteReceiptsMigratedAtIndex : String := "/receipts/:" ++ ParameterMilestoneIndex
def RoutePeer : String := "/peers/:" ++ ParameterPeerID
def RoutePeers : String := "/peers"
def RouteControlDatabasePrune : String := "/control/database/prune"
def RouteControlSnapshotsCreate : String := "/control/snapshots/create"

/-- The versioned base path of the RestAPIV1 route group. -/
def routeGroupBasePath : String := "/api/v1"

/-- The RestAPIV1 plugin's default status (node.StatusEnabled). -/
def pluginDefaultStatus : PluginStatus := .statusEnabled

/-- Result of the RestAPIV1 plugin's configure step: the feature list it
initialized and the routes it registered on the route group. -/
structure ConfigureResult where
  features : List String
  routes : List Route
deriving DecidableEq, Repr

/-- Embedding of the RestAPIV1 plugin's configure function. `powEnabled` is
the value read from the node config (CfgRestAPIPoWEnabled);
`tipSelectorPresent` is whether the optional TipSelector dependency was
resolved (non-nil). The tips route is registered only when the TipSelector
is present; all routes are listed in source registration order with the
success encoding their handler closure produces. -/
def configure (powEnabled : Bool) (tipSelectorPresent : Bool) : ConfigureResult :=
  { features := if powEnabled then [] ++ ["PoW"] else []
  , routes :=
      [⟨.GET, RouteInfo, .json 200 false⟩]
      ++ (if tipSelectorPresent then [⟨.GET, RouteTips, .json 200 false⟩] else [])
      ++ [⟨.GET, RouteMessageMetadata, .json 200 false⟩,
          ⟨.GET, RouteMessageData, .json 200 false⟩,
          ⟨.GET, RouteMessageBytes, .octet 200⟩,
          ⟨.GET, RouteMessageChildren, .json 200 false⟩,
          ⟨.GET, RouteMessages, .json 200 false⟩,
          ⟨.POST, RouteMessages, .json 201 true⟩,
          ⟨.GET, RouteTransactionsIncludedMessage, .json 200 false⟩,
          ⟨.GET, RouteMilestone, .json 200 false⟩,
          ⟨.GET, RouteMilestoneUTXOChanges, .json 200 false⟩,
          ⟨.GET, RouteOutputs, .json 200 false⟩,
          ⟨.GET, RouteOutput, .json 200 false⟩,
          ⟨.GET, RouteAddressBech32Outputs, .json 200 false⟩,
          ⟨.GET, RouteAddressEd25519Outputs, .json 200 false⟩,
          ⟨.GET, RouteAddressAliasOutputs, .json 200 false⟩,
          ⟨.GET, RouteAddressNFTOutputs, .json 200 false⟩,
          ⟨.GET, RouteAlias, .json 200 false⟩,
          ⟨.GET, RouteNFT, .json 200 false⟩,
          ⟨.GET, RouteFoundry, .json 200 false⟩,
          ⟨.GET, RouteTreasury, .json 200 false⟩,
          ⟨.GET, RouteReceipts, .json 200 false⟩,
          ⟨.GET, RouteReceiptsMigratedAtIndex, .json 200 false⟩,
          ⟨.GET, RoutePeer, .json 200 false⟩,
          ⟨.DELETE, RoutePeer, .empty 204⟩,
          ⟨.GET, RoutePeers, .json 200 false⟩,
          ⟨.POST, RoutePeers, .json 200 false⟩,
          ⟨.POST, RouteControlDatabasePrune, .json 200 false⟩,
          ⟨.POST, RouteControlSnapshotsCreate, .json 200 false⟩] }

/-- Embedding of AddFeature: appends a feature string to the process-wide
feature list (unguarded append, no deduplication). -/
def AddFeature (features : List String) (feature : String) : List String :=
  features ++ [feature]

/-- Modelled from the spec: the info operation (its body is outside this
slice) reports the current feature list unchanged in its response. -/
def infoFeatures (features : List String) : List String := features

/-- One hex digit. -/
def hexDigit (n : Nat) : Char :=
  if n < 10 then Char.ofNat (48 + n) else Char.ofNat (87 + n)

/-- Hex encoding of a byte sequence, two digits per byte. -/
def hexEncode (bytes : List Nat) : String :=
  ⟨bytes.foldr (fun b acc => hexDigit (b / 16 % 16) :: hexDigit (b % 16) :: acc) []⟩

/-- Modelled from the spec: the sendMessage operation (outside this slice)
returns the new message's identifier, the hex encoding of its 32-byte id. -/
def sendMessageID (msgID : List Nat) : String := hexEncode msgID

/-- The response payload of a successful message submission. -/
structure MessageResponse where
  messageID : String
deriving DecidableEq, Repr

/-- Embedding of the POST /messages handler closure: on a sendMessage error
the error propagates; on success the handler sets the Location header to the
new message id and answers with a JSON envelope and status 201 (Created).
The success value is (status, Location header, payload). -/
def postMessagesHandler (r : Except ApiError MessageResponse) :
    Except ApiError (Nat × Option String × MessageResponse) :=
  match r with
  | .error e => .error e
  | .ok resp => .ok (201, some resp.messageID, resp)

/-- Modelled from the spec: removePeer (the peering collaborator is outside
this slice) removes a known peer id from the peer membership and reports
NotFound for an unknown id. Peer membership is modelled as the list of peer
ids. -/
def removePeer (peers : List String) (pid : String) :
    Except ApiError (List String) :=
  if pid ∈ peers then .ok (peers.filter (fun q => q != pid)) else .error .notFound

/-- Modelled from the spec: listPeers reports the current peer membership. -/
def listPeers (peers : List String) : List String := peers

/-- Embedding of the DELETE /peers/:peerID handler closure: a removePeer
error propagates; on success the handler answers no-content 204 with an
empty body. The success value is (new peer membership, status, encoding
class of the body). -/
def deletePeerHandler (peers : List String) (pid : String) :
    Except ApiError (List String × Nat × EncClass) :=
  match removePeer peers pid with
  | .error e => .error e
  | .ok rest => .ok (rest, 204, .emptyBody)

/-- The dependency bundle of the RestAPIV1 plugin, one field per entry of
the dig.In struct; each field records presence of the resolved handle.
TipSelector and Echo carry the tag making them optional; every other entry
is mandatory. -/
structure DependencyBundle where
  storage : Option Unit
  syncManager : Option Unit
  tangle : Option Unit
  peeringManager : Option Unit
  gossipService : Option Unit
  utxoManager : Option Unit
  powHandler : Option Unit
  messageProcessor : Option Unit
  snapshotManager : Option Unit
  appInfo : Option Unit
  nodeConfig : Option Unit
  peeringConfigManager : Option Unit
  networkID : Option Unit
  networkIDName : Option Unit
  deserializationParameters : Option Unit
  maxDeltaMsgYoungestConeRootIndexToCMI : Option Unit
  maxDeltaMsgOldestConeRootIndexToCMI : Option Unit
  belowMaxDepth : Option Unit
  minPoWScore : Option Unit
  bech32HRP : Option Unit
  restAPILimitsMaxResults : Option Unit
  snapshotsFullPath : Option Unit
  snapshotsDeltaPath : Option Unit
  tipSelector : Option Unit
  echo : Option Unit
deriving DecidableEq, Repr

/-- Presence of every mandatory entry of the bundle (all fields except the
optional TipSelector and Echo). -/
def mandatoryPresent (b : DependencyBundle) : Bool :=
  b.storage.isSome && b.syncManager.isSome && b.tangle.isSome
    && b.peeringManager.isSome && b.gossipService.isSome && b.utxoManager.isSome
    && b.powHandler.isSome && b.messageProcessor.isSome && b.snapshotManager.isSome
    && b.appInfo.isSome && b.nodeConfig.isSome && b.peeringConfigManager.isSome
    && b.networkID.isSome && b.networkIDName.isSome
    && b.deserializationParameters.isSome
    && b.maxDeltaMsgYoungestConeRootIndexToCMI.isSome
    && b.maxDeltaMsgOldestConeRootIndexToCMI.isSome
    && b.belowMaxDepth.isSome && b.minPoWScore.isSome && b.bech32HRP.isSome
    && b.restAPILimitsMaxResults.isSome && b.snapshotsFullPath.isSome
    && b.snapshotsDeltaPath.isSome

/-- Modelled from the spec: the dependency-injection container (outside this
slice) resolves the bundle before Configure runs; a missing mandatory entry
is a fatal startup error and Configure never runs. -/
def resolveDeps (b : DependencyBundle) : Except String DependencyBundle :=
  if mandatoryPresent b then .ok b else .error "missing mandatory dependency"

/-- Startup of the RestAPIV1 plugin: resolve the bundle, then run configure.
Modelled from the spec: the Echo router host is provided by the RestAPI
plugin, so it is absent exactly when that plugin is skipped; configure's
IsSkipped guard then panics (a controlled fatal error) before creating the
route group, so no route is registered. -/
def startup (b : DependencyBundle) (powEnabled : Bool) :
    Except String ConfigureResult :=
  match resolveDeps b with
  | .error e => .error e
  | .ok d =>
    if d.echo.isNone then
      .error "RestAPI plugin needs to be enabled to use the RestAPIV1 plugin"
    else
      .ok (configure powEnabled d.tipSelector.isSome)

end V1

namespace SyncGate

/-- The sync-gate deadline in milliseconds: the source constant
waitForNodeSyncedTimeout is 2000 times one millisecond. -/
def deadlineMillis : Nat := 2000

/-- States of the per-request synchronization gate. -/
inductive State
  | Unchecked
  | Waiting
  | Synced
  | TimedOut
deriving DecidableEq, Repr

/-- Allowed transitions of the gate's state machine: Unchecked goes to
Waiting (or directly to Synced when the node already reports synced), and
Waiting resolves to Synced or TimedOut. -/
def stepAllowed : State → State → Bool
  | .Unchecked, .Waiting => true
  | .Unchecked, .Synced => true
  | .Waiting, .Synced => true
  | .Waiting, .TimedOut => true
  | _, _ => false

/-- A state sequence in which every consecutive pair is an allowed
transition. -/
def chainAllowed : List State → Bool
  | a :: b :: rest => stepAllowed a b && chainAllowed (b :: rest)
  | _ => true

/-- Modelled from the spec: the gate's wait loop (outside this slice, the
source provides only the 2000 ms constant and ErrNodeNotSync). The input is
the time, in milliseconds from the moment the check begins, at which the
node first reports synced (none if it never does within observation). The
trace is the sequence of gate states traversed. -/
def trace (syncedAt : Option Nat) : List State :=
  match syncedAt with
  | some 0 => [.Unchecked, .Synced]
  | some (t + 1) =>
    if t + 1 < deadlineMillis then [.Unchecked, .Waiting, .Synced]
    else [.Unchecked, .Waiting, .TimedOut]
  | none => [.Unchecked, .Waiting, .TimedOut]

/-- Modelled from the spec: outcome of a gated request. If sync is reported
before the deadline the original operation proceeds; otherwise the
operation is aborted with the not-synced error. -/
def gatedResult (syncedAt : Option Nat) : Except ApiError Unit :=
  match syncedAt with
  | some t => if t < deadlineMillis then .ok () else .error .notSynced
  | none => .error .notSynced

end SyncGate

namespace Debug

/-- Parameter names defined in the Debug plugin source. -/
def ParameterMessageID : String := "messageID"
def ParameterMilestoneIndex : String := "milestoneIndex"

/-- Route path constants of the Debug plugin. -/
def RouteDebugSolidifier : String := "/solidifier"
def RouteDebugOutputs : String := "/outputs"
def RouteDebugOutputsUnspent : String := "/outputs/unspent"
def RouteDebugOutputsSpent : String := "/outputs/spent"
def RouteDebugAddresses : String := "/addresses"
def RouteDebugAddressesEd25519 : String := "/addresses/ed25519"
def RouteDebugMilestoneDiffs : String := "/ms-diff/:" ++ ParameterMilestoneIndex
def RouteDebugRequests : String := "/requests"
def RouteDebugMessageCone : String := "/message-cones/:" ++ ParameterMessageID

/-- The Debug plugin's default status (node.Disabled in its init). -/
def pluginDefaultStatus : PluginStatus := .statusDisabled

/-- The base path of the Debug route group. -/
def routeGroupBasePath : String := "/api/plugins/debug"

/-- Embedding of the Debug plugin's configure function: the routes it
registers on its route group, in source registration order, with the
success encoding each handler closure produces. -/
def configure : List Route :=
  [⟨.GET, RouteDebugSolidifier, .json 200 false⟩,
   ⟨.GET, RouteDebugOutputs, .json 200 false⟩,
   ⟨.GET, RouteDebugOutputsUnspent, .json 200 false⟩,
   ⟨.GET, RouteDebugOutputsSpent, .json 200 false⟩,
   ⟨.GET, RouteDebugAddresses, .json 200 false⟩,
   ⟨.GET, RouteDebugAddressesEd25519, .json 200 false⟩,
   ⟨.GET, RouteDebugMilestoneDiffs, .json 200 false⟩,
   ⟨.GET, RouteDebugRequests, .json 200 false⟩,
   ⟨.GET, RouteDebugMessageCone, .json 200 false⟩]

/-- Tangle collaborator state as seen by the Debug plugin: how many times
the solidifier has been triggered. -/
structure TangleState where
  solidifierTriggerCount : Nat
deriving DecidableEq, Repr

/-- TriggerSolidifier on the tangle collaborator. -/
def triggerSolidifier (s : TangleState) : TangleState :=
  ⟨s.solidifierTriggerCount + 1⟩

/-- Embedding of the GET /solidifier handler closure: it unconditionally
triggers the solidifier and answers a JSON envelope with status 200 and the
fixed payload string; it has no error branch. The result is the updated
tangle state and the (status, payload) response. -/
def solidifierHandler (s : TangleState) :
    TangleState × Except ApiError (Nat × String) :=
  (triggerSolidifier s, .ok (200, "solidifier triggered"))

end Debug

namespace V1

/-- A fully populated dependency bundle: every handle resolved. -/
def fullBundle : DependencyBundle :=
  ⟨some (), some (), some (), some (), some (), some (), some (), some (),
   some (), some (), some (), some (), some (), some (), some (), some (),
   some (), some (), some (), some (), some (), some (), some (), some (),
   some ()⟩

/-- The full bundle with the mandatory storage handle missing. -/
def bundleMissingStorage : DependencyBundle := { fullBundle with storage := none }

end V1

/-- Claim C1: with the optional tip-selection dependency absent, no route of
the tips group is registered: for every method, a request to the tips path
finds no route, so dispatch yields 404 (not found), which is neither 503 nor
any 5xx status; with the dependency present the route does exist. -/
theorem tips_unrouted_without_tipselector (p : Bool) (m : Method) :
    findRoute (V1.configure p false).routes m V1.RouteTips = none
    ∧ dispatchStatus (V1.configure p false).routes m V1.RouteTips = 404
    ∧ dispatchStatus (V1.configure p false).routes m V1.RouteTips ≠ 503
    ∧ dispatchStatus (V1.configure p false).routes m V1.RouteTips < 500
    ∧ findRoute (V1.configure p true).routes .GET V1.RouteTips
        = some ⟨.GET, V1.RouteTips, .json 200 false⟩ := by
  cases p <;> cases m <;> decide

/-- Claim C5: the info route is registered as a GET answering a JSON
envelope with status 200; the feature list computed at configure time
contains the entry PoW exactly when proof-of-work is enabled in the
configuration, and with proof-of-work disabled (and no other feature
contributions) the feature list is empty. -/
theorem info_status_and_pow_feature (p tips : Bool) :
    findRoute (V1.configure p tips).routes .GET V1.RouteInfo
      = some ⟨.GET, V1.RouteInfo, .json 200 false⟩
    ∧ ("PoW" ∈ V1.infoFeatures (V1.configure p tips).features ↔ p = true)
    ∧ V1.infoFeatures (V1.configure false tips).features = [] := by
  cases p <;> cases tips <;> decide

/-- Claim C9: the debug surface is disabled by default, its route group base
path is distinct from the versioned v1 base path, and it registers exactly
the solidifier trigger, the all/unspent/spent output id listings, the
generic and ed25519 known-address listings, the milestone diff by index,
the pending request listing, and the message-cone traversal by id. -/
theorem debug_surface_routes :
    Debug.pluginDefaultStatus = .statusDisabled
    ∧ Debug.routeGroupBasePath ≠ V1.routeGroupBasePath
    ∧ Debug.configure.map (fun r => (r.method, r.path)) =
        [(.GET, "/solidifier"), (.GET, "/outputs"), (.GET, "/outputs/unspent"),
         (.GET, "/outputs/spent"), (.GET, "/addresses"),
         (.GET, "/addresses/ed25519"), (.GET, "/ms-diff/:milestoneIndex"),
         (.GET, "/requests"), (.GET, "/message-cones/:messageID")] := by
  decide

/-- Claim C10: the debug solidifier-trigger handler never fails: for every
tangle state it triggers the solidifier exactly once and answers status 200
with the fixed payload string, with no error branch. -/
theorem solidifier_handler_total (s : Debug.TangleState) :
    Debug.solidifierHandler s
      = (⟨s.solidifierTriggerCount + 1⟩, .ok (200, "solidifier triggered")) := rfl

/-- Claim C3: every AddFeature call appends its string to the feature list:
after any sequence of calls on any starting list, the feature list read by
the info operation is the starting list followed by all the call arguments,
in call order, duplicates preserved; none are lost. -/
theorem addFeature_calls_all_present (init calls : List String) :
    V1.infoFeatures (calls.foldl V1.AddFeature init) = init ++ calls := by
  induction calls generalizing init with
  | nil => simp [V1.infoFeatures]
  | cons f fs ih =>
    simp only [List.foldl_cons]
    rw [ih]
    simp [V1.AddFeature]

/-- Claim C6: all three success response encodings (structured JSON, raw
octet-stream, empty body) occur among the registered routes; the raw
octet-stream encoding is used exactly by the GET raw-message-bytes route;
and every other GET route answers a structured JSON envelope with status
200. -/
theorem response_encoding_taxonomy (p tips : Bool) :
    (EncClass.structured
        ∈ (V1.configure p tips).routes.map (fun r => encClass r.enc)
      ∧ EncClass.rawBinary
        ∈ (V1.configure p tips).routes.map (fun r => encClass r.enc)
      ∧ EncClass.emptyBody
        ∈ (V1.configure p tips).routes.map (fun r => encClass r.enc))
    ∧ ((V1.configure p tips).routes.all (fun r =>
        (encClass r.enc == EncClass.rawBinary)
          == (r.method == Method.GET && r.path == V1.RouteMessageBytes))) = true
    ∧ ((V1.configure p tips).routes.all (fun r =>
        !(r.method == Method.GET) || (r.path == V1.RouteMessageBytes)
          || (r.enc == Enc.json 200 false))) = true := by
  cases p <;> cases tips <;> decide

/-- Claim C2: the sync gate's deadline is exactly 2000 ms from the moment
the check begins; if sync is reported at t less than 2000 ms the gated
operation proceeds, and if sync is still false at the deadline the
operation is aborted with the not-synced error, which maps to 503; every
gate trace is a path of the machine Unchecked to Waiting to Synced or
TimedOut (directly to Synced when already synced) starting at Unchecked. -/
theorem sync_gate_deadline (t : Nat) :
    SyncGate.deadlineMillis = 2000
    ∧ (t < 2000 → SyncGate.gatedResult (some t) = .ok ())
    ∧ (2000 ≤ t → SyncGate.gatedResult (some t) = .error .notSynced)
    ∧ SyncGate.gatedResult none = .error .notSynced
    ∧ httpStatus .notSynced = 503
    ∧ SyncGate.chainAllowed (SyncGate.trace (some t)) = true
    ∧ SyncGate.chainAllowed (SyncGate.trace none) = true
    ∧ (SyncGate.trace (some t)).head? = some .Unchecked := by
  refine ⟨rfl, ?_, ?_, rfl, rfl, ?_, rfl, ?_⟩
  · intro h
    simp [SyncGate.gatedResult, SyncGate.deadlineMillis, h]
  · intro h
    simp [SyncGate.gatedResult, SyncGate.deadlineMillis, Nat.not_lt.mpr h]
  · cases t with
    | zero => rfl
    | succ n =>
      simp only [SyncGate.trace]
      split <;> rfl
  · cases t with
    | zero => rfl
    | succ n =>
      simp only [SyncGate.trace]
      split <;> rfl

/-- Witness for C2 at concrete times just below and at the deadline. -/
theorem sync_gate_deadline_witness :
    SyncGate.gatedResult (some 1999) = .ok ()
    ∧ SyncGate.gatedResult (some 2000) = .error .notSynced :=
  ⟨(sync_gate_deadline 1999).2.1 (by decide),
   (sync_gate_deadline 2000).2.2.1 (by decide)⟩

/-- Helper: the hex encoding of a byte sequence has two characters per
byte. -/
theorem hexEncode_length (bs : List Nat) :
    (V1.hexEncode bs).length = 2 * bs.length := by
  induction bs with
  | nil => rfl
  | cons b rest ih =>
    have hcons : V1.hexEncode (b :: rest) =
        ⟨V1.hexDigit (b / 16 % 16) :: V1.hexDigit (b % 16)
          :: (V1.hexEncode rest).data⟩ := rfl
    rw [hcons]
    simp only [String.length] at ih ⊢
    simp only [List.length_cons, List.length]
    omega

/-- Claim C4: the POST messages route is registered with a created (201)
JSON encoding that sets the Location header; the handler, on a successful
submission, answers 201 (not 200) with the Location header set to the new
message id, and the id returned for a 32-byte message identifier is
non-empty. -/
theorem post_messages_created (resp : V1.MessageResponse) (p tips : Bool)
    (msgID : List Nat) (h : msgID.length = 32) :
    V1.postMessagesHandler (.ok resp) = .ok (201, some resp.messageID, resp)
    ∧ findRoute (V1.configure p tips).routes .POST V1.RouteMessages
        = some ⟨.POST, V1.RouteMessages, .json 201 true⟩
    ∧ V1.sendMessageID msgID ≠ ""
    ∧ (201 : Nat) ≠ 200 := by
  refine ⟨rfl, ?_, ?_, by decide⟩
  · cases p <;> cases tips <;> decide
  · intro contra
    have hl := hexEncode_length msgID
    have hs : V1.sendMessageID msgID = V1.hexEncode msgID := rfl
    rw [hs] at contra
    rw [contra, h] at hl
    simp [String.length] at hl

/-- Witness for C4: a concrete successful submission and a concrete 32-byte
message identifier. -/
theorem post_messages_created_witness :
    V1.postMessagesHandler (.ok ⟨"aa"⟩) = .ok (201, some "aa", ⟨"aa"⟩)
    ∧ V1.sendMessageID (List.replicate 32 0) ≠ "" :=
  ⟨(post_messages_created ⟨"aa"⟩ true true (List.replicate 32 0) (by decide)).1,
   (post_messages_created ⟨"aa"⟩ true true (List.replicate 32 0) (by decide)).2.2.1⟩

/-- Claim C7: removing an unknown peer id fails with NotFound, which maps
to 404; removing a known id succeeds with an empty-body 204 no-content
response and the removed peer is absent from a subsequent peer listing. -/
theorem remove_peer_semantics (peers : List String) (pid : String) :
    (pid ∉ peers →
      V1.deletePeerHandler peers pid = .error .notFound
        ∧ httpStatus .notFound = 404)
    ∧ (pid ∈ peers →
      V1.deletePeerHandler peers pid
          = .ok (peers.filter (fun q => q != pid), 204, .emptyBody)
        ∧ pid ∉ V1.listPeers (peers.filter (fun q => q != pid))) := by
  constructor
  · intro h
    refine ⟨?_, rfl⟩
    simp [V1.deletePeerHandler, V1.removePeer, h]
  · intro h
    refine ⟨?_, ?_⟩
    · simp [V1.deletePeerHandler, V1.removePeer, h]
    · simp [V1.listPeers, List.mem_filter]

/-- Witness for C7: removal of an unknown and of a known peer id on a
concrete peer membership. -/
theorem remove_peer_semantics_witness :
    (V1.deletePeerHandler ["alice", "bob"] "carol" = .error .notFound
      ∧ httpStatus .notFound = 404)
    ∧ (V1.deletePeerHandler ["alice", "bob"] "alice"
        = .ok (["alice", "bob"].filter (fun q => q != "alice"), 204, .emptyBody)
      ∧ "alice" ∉ V1.listPeers (["alice", "bob"].filter (fun q => q != "alice"))) :=
  ⟨(remove_peer_semantics ["alice", "bob"] "carol").1 (by decide),
   (remove_peer_semantics ["alice", "bob"] "alice").2 (by decide)⟩

/-- Claim C8: startup with any mandatory entry of the dependency bundle
missing, or with the Echo router host missing, fails with a controlled
fatal error and registers no routes; conversely whenever startup succeeds,
every mandatory entry and the router host were present. -/
theorem startup_requires_mandatory (b : V1.DependencyBundle) (p : Bool) :
    (¬ (V1.mandatoryPresent b = true ∧ b.echo.isSome = true) →
      ∃ msg, V1.startup b p = .error msg)
    ∧ (∀ res, V1.startup b p = .ok res →
      V1.mandatoryPresent b = true ∧ b.echo.isSome = true) := by
  have key : ∀ q : Bool,
      (V1.mandatoryPresent b = false →
        V1.startup b q = .error "missing mandatory dependency")
      ∧ (V1.mandatoryPresent b = true → b.echo = none →
        V1.startup b q
          = .error "RestAPI plugin needs to be enabled to use the RestAPIV1 plugin") := by
    intro q
    constructor
    · intro hm
      have hre : V1.resolveDeps b = .error "missing mandatory dependency" := by
        unfold V1.resolveDeps
        rw [hm]
        rfl
      unfold V1.startup
      rw [hre]
    · intro hm he
      have hre : V1.resolveDeps b = .ok b := by
        unfold V1.resolveDeps
        rw [hm]
        rfl
      unfold V1.startup
      rw [hre]
      dsimp only
      rw [he]
      rfl
  constructor
  · intro h
    cases hm : V1.mandatoryPresent b with
    | false => exact ⟨"missing mandatory dependency", (key p).1 hm⟩
    | true =>
      cases he : b.echo with
      | none =>
        exact ⟨"RestAPI plugin needs to be enabled to use the RestAPIV1 plugin",
          (key p).2 hm he⟩
      | some u => exact absurd ⟨hm, by rw [he]; rfl⟩ h
  · intro res hres
    cases hm : V1.mandatoryPresent b with
    | false =>
      rw [(key p).1 hm] at hres
      exact Except.noConfusion hres
    | true =>
      cases he : b.echo with
      | none =>
        rw [(key p).2 hm he] at hres
        exact Except.noConfusion hres
      | some u => exact ⟨rfl, rfl⟩

/-- Witness for C8: startup fails on a bundle missing the storage handle
and succeeds on the fully populated bundle. -/
theorem startup_requires_mandatory_witness :
    (∃ msg, V1.startup V1.bundleMissingStorage true = .error msg)
    ∧ (V1.mandatoryPresent V1.fullBundle = true
      ∧ V1.fullBundle.echo.isSome = true) :=
  ⟨(startup_requires_mandatory V1.bundleMissingStorage true).1 (by decide),
   (startup_requires_mandatory V1.fullBundle true).2
     (V1.configure true true) rfl⟩
